import Mathlib

/-!
Shallow embedding of the rss2socials core: content fingerprinting, the
ChangeStore over SQLite (`internal/db/db.go`), the Mastodon content
formatter (`internal/mastodon`), and the orchestration loop
(`internal/rss2socials/rss2socials.go`).  Effectful calls (database,
Mastodon, Bluesky, Threads) are abstracted by per-call outcome flags, and
`handlePost` / one iteration of `Run` are modelled as pure functions
returning the updated store together with a trace of observable events.
-/

namespace RSS2Socials

/-- A feed item as produced by `rss.CheckRSSFeed` (fields used by the core). -/
structure RSSItem where
  title : String
  link : String
  content : String
deriving Repr, DecidableEq

/-- The configuration fields of `config.Config` consumed by the core loop. -/
structure Config where
  mastodonURL : String := ""
  mastodonAccessToken : String := ""
  feedURL : String := ""
  interval : Int := 60
  category : String := ""
  skipPrefixCategories : List String := []
  blueskyHandle : String := ""
  blueskyPassword : String := ""
  threadsUserID : String := ""
  threadsToken : String := ""
deriving Repr

/-! ### ContentHasher: `rss.HashContent` is `sha256.Sum256([]byte(content))`
(src/unnamed/part_001), i.e. SHA-256 per FIPS 180-4 over the UTF-8 bytes of
the content.  The algorithm is embedded below with `Nat` words reduced mod
`2 ^ 32`, and validated against the repository's `TestHashContent` vector. -/

/-- Right rotation of a 32-bit word (input assumed `< 2 ^ 32`). -/
def rotr32 (k n : Nat) : Nat :=
  ((n >>> k) ||| (n <<< (32 - k))) % 2 ^ 32

/-- SHA-256 small sigma 0. -/
def ssig0 (x : Nat) : Nat := rotr32 7 x ^^^ rotr32 18 x ^^^ (x >>> 3)

/-- SHA-256 small sigma 1. -/
def ssig1 (x : Nat) : Nat := rotr32 17 x ^^^ rotr32 19 x ^^^ (x >>> 10)

/-- SHA-256 big sigma 0. -/
def bsig0 (x : Nat) : Nat := rotr32 2 x ^^^ rotr32 13 x ^^^ rotr32 22 x

/-- SHA-256 big sigma 1. -/
def bsig1 (x : Nat) : Nat := rotr32 6 x ^^^ rotr32 11 x ^^^ rotr32 25 x

/-- The 64 SHA-256 round constants of FIPS 180-4, written in decimal. -/
def sha256K : List Nat :=
  [1116352408, 1899447441, 3049323471, 3921009573, 961987163, 1508970993,
   2453635748, 2870763221, 3624381080, 310598401, 607225278, 1426881987,
   1925078388, 2162078206, 2614888103, 3248222580, 3835390401, 4022224774,
   264347078, 604807628, 770255983, 1249150122, 1555081692, 1996064986,
   2554220882, 2821834349, 2952996808, 3210313671, 3336571891, 3584528711,
   113926993, 338241895, 666307205, 773529912, 1294757372, 1396182291,
   1695183700, 1986661051, 2177026350, 2456956037, 2730485921, 2820302411,
   3259730800, 3345764771, 3516065817, 3600352804, 4094571909, 275423344,
   430227734, 506948616, 659060556, 883997877, 958139571, 1322822218,
   1537002063, 1747873779, 1955562222, 2024104815, 2227730452, 2361852424,
   2428436474, 2756734187, 3204031479, 3329325298]

/-- The eight 32-bit working variables of the SHA-256 compression function. -/
structure SHAState where
  a : Nat
  b : Nat
  c : Nat
  d : Nat
  e : Nat
  f : Nat
  g : Nat
  h : Nat

/-- The SHA-256 initial hash value of FIPS 180-4, written in decimal. -/
def initState : SHAState :=
  ⟨1779033703, 3144134277, 1013904242, 2773480762,
   1359893119, 2600822924, 528734635, 1541459225⟩

/-- UTF-8 encoding of a character sequence, as Go's `[]byte(content)` on its
(already UTF-8) strings. -/
def utf8Bytes : List Char → List Nat
  | [] => []
  | c :: cs =>
    let n := c.toNat
    (if n < 128 then [n]
     else if n < 2048 then [192 + n / 64, 128 + n % 64]
     else if n < 65536 then [224 + n / 4096, 128 + n / 64 % 64, 128 + n % 64]
     else [240 + n / 262144, 128 + n / 4096 % 64, 128 + n / 64 % 64, 128 + n % 64])
      ++ utf8Bytes cs

/-- The 8-byte big-endian encoding of the message bit length. -/
def lenBytes (bl : Nat) : List Nat :=
  [bl / 2 ^ 56 % 256, bl / 2 ^ 48 % 256, bl / 2 ^ 40 % 256, bl / 2 ^ 32 % 256,
   bl / 2 ^ 24 % 256, bl / 2 ^ 16 % 256, bl / 2 ^ 8 % 256, bl % 256]

/-- SHA-256 padding: append `0x80`, zeros to 56 mod 64, then the bit length. -/
def padMessage (msg : List Nat) : List Nat :=
  msg ++ [128] ++ List.replicate ((119 - msg.length % 64) % 64) 0
    ++ lenBytes (8 * msg.length)

/-- Big-endian 32-bit words from a byte sequence. -/
def bytesToWords : List Nat → List Nat
  | b0 :: b1 :: b2 :: b3 :: rest =>
    (b0 * 2 ^ 24 + b1 * 2 ^ 16 + b2 * 2 ^ 8 + b3) :: bytesToWords rest
  | _ => []

/-- Group a padded word sequence into 16-word blocks. -/
def wordsToBlocks : List Nat → List (List Nat)
  | w0 :: w1 :: w2 :: w3 :: w4 :: w5 :: w6 :: w7
      :: w8 :: w9 :: w10 :: w11 :: w12 :: w13 :: w14 :: w15 :: rest =>
    [w0, w1, w2, w3, w4, w5, w6, w7, w8, w9, w10, w11, w12, w13, w14, w15]
      :: wordsToBlocks rest
  | _ => []

/-- Extend a block's 16 words to the 64-word message schedule; `wrev` holds
the words produced so far, most recent first. -/
def scheduleLoop : Nat → List Nat → List Nat
  | 0, wrev => wrev
  | Nat.succ k, wrev =>
    let wt := (ssig1 (wrev.getD 1 0) + wrev.getD 6 0
                + ssig0 (wrev.getD 14 0) + wrev.getD 15 0) % 2 ^ 32
    scheduleLoop k (wt :: wrev)

/-- The 64 SHA-256 compression rounds over the zipped round constants and
schedule words. -/
def compressLoop : List (Nat × Nat) → SHAState → SHAState
  | [], s => s
  | (kt, wt) :: rest, s =>
    let t1 := s.h + bsig1 s.e + ((s.e &&& s.f) ^^^ ((s.e ^^^ 4294967295) &&& s.g)) + kt + wt
    let t2 := bsig0 s.a + ((s.a &&& s.b) ^^^ (s.a &&& s.c) ^^^ (s.b &&& s.c))
    compressLoop rest
      ⟨(t1 + t2) % 2 ^ 32, s.a, s.b, s.c, (s.d + t1) % 2 ^ 32, s.e, s.f, s.g⟩

/-- Process the message blocks, adding each compression result into the
running hash value. -/
def processBlocks : List (List Nat) → SHAState → SHAState
  | [], s => s
  | blk :: rest, s =>
    let w := (scheduleLoop 48 blk.reverse).reverse
    let t := compressLoop (sha256K.zip w) s
    processBlocks rest
      ⟨(s.a + t.a) % 2 ^ 32, (s.b + t.b) % 2 ^ 32, (s.c + t.c) % 2 ^ 32,
       (s.d + t.d) % 2 ^ 32, (s.e + t.e) % 2 ^ 32, (s.f + t.f) % 2 ^ 32,
       (s.g + t.g) % 2 ^ 32, (s.h + t.h) % 2 ^ 32⟩

/-- Big-endian bytes of a 32-bit word. -/
def wordBytes (w : Nat) : List Nat :=
  [w / 2 ^ 24 % 256, w / 2 ^ 16 % 256, w / 2 ^ 8 % 256, w % 256]

/-- `rss.HashContent` (src/unnamed/part_001): the SHA-256 digest of the
content's UTF-8 bytes, as the 32-byte array `sha256.Sum256` returns. -/
def HashContent (content : String) : List Nat :=
  let s := processBlocks
    (wordsToBlocks (bytesToWords (padMessage (utf8Bytes content.data)))) initState
  wordBytes s.a ++ wordBytes s.b ++ wordBytes s.c ++ wordBytes s.d
    ++ wordBytes s.e ++ wordBytes s.f ++ wordBytes s.g ++ wordBytes s.h

/-- The sixteen lowercase hex digits. -/
def hexChars : List Char := "0123456789abcdef".data

/-- Go `fmt.Sprintf("%x", bytes)`: two lowercase hex digits per byte. -/
def bytesToHex (bs : List Nat) : String :=
  String.mk (bs.foldr
    (fun b acc => hexChars.getD (b / 16 % 16) 'x' :: hexChars.getD (b % 16) 'x' :: acc) [])

/-- The stored fingerprint string `fmt.Sprintf("%x", rss.HashContent(content))`
computed by `db.StoreTootedPost` / `db.HasPostChanged`. -/
def hashHex (content : String) : String := bytesToHex (HashContent content)

/-- A row of the `tooted_posts` table: `{link PRIMARY KEY, content_hash, timestamp}`. -/
structure PostRecord where
  contentHash : String
  timestamp : String
deriving Repr, DecidableEq

/-- The `tooted_posts` table, keyed by link. -/
def Store := List (String × PostRecord)

instance : DecidableEq Store := by
  unfold Store
  infer_instance

/-- Point lookup `SELECT content_hash FROM tooted_posts WHERE link = ?`. -/
def lookupStore (st : Store) (link : String) : Option PostRecord :=
  (st.find? (fun e => e.1 = link)).map Prod.snd

/-- `db.StoreTootedPost`: `INSERT OR REPLACE INTO tooted_posts(link, content_hash, timestamp)`
with the hex content hash of `content` and the current timestamp `now`. -/
def StoreTootedPost (st : Store) (link content now : String) : Store :=
  (link, ⟨hashHex content, now⟩) :: st.filter (fun e => ¬ (e.1 = link))

/-- `db.HasPostChanged`: returns `(exists, updated)`.  Absent row ⇒
`(false, false)`; present with a different stored hash ⇒ `(true, true)`;
present with the same hash ⇒ `(true, false)`.  Pure lookup, no mutation. -/
def HasPostChanged (st : Store) (link content : String) : Bool × Bool :=
  match lookupStore st link with
  | none => (false, false)
  | some r => if r.contentHash ≠ hashHex content then (true, true) else (true, false)

/-- `p` is a leading segment of `s` (character lists), as `strings.HasPrefix`. -/
def begins : List Char → List Char → Bool
  | [], _ => true
  | _ :: _, [] => false
  | a :: as, b :: bs => a = b && begins as bs

/-- `sub` occurs contiguously inside `s` (character lists), as `strings.Contains`. -/
def containsSeq (sub : List Char) : List Char → Bool
  | [] => sub.isEmpty
  | c :: cs => begins sub (c :: cs) || containsSeq sub cs

/-- Go `strings.Contains(s, sub)`. -/
def goContains (s sub : String) : Bool := containsSeq sub.data s.data

/-- Go `strings.HasPrefix(s, pre)`. -/
def goStartsWith (s pre : String) : Bool := begins pre.data s.data

/-- Go `path.Base`: empty ⇒ "."; otherwise strip trailing slashes, take the
part after the last slash; if nothing remains the path was all slashes ⇒ "/". -/
def pathBase (p : String) : String :=
  if p.data.isEmpty then "."
  else
    let stripped := (p.data.reverse.dropWhile (fun c => c = '/')).reverse
    let leaf := (stripped.reverse.takeWhile (fun c => ¬ (c = '/'))).reverse
    if leaf.isEmpty then "/" else String.mk leaf

/-- `mastodon.GetTootContent`: scan `skipPrefixCategories` in order; on the
first category that is a prefix of the title return `"{content} - {link}"`,
otherwise `"New blog post: {link}"`. -/
def GetTootContent (post : RSSItem) (skipPrefixCategories : List String) : String :=
  match skipPrefixCategories.find? (fun cat => goStartsWith post.title cat) with
  | some _ => post.content ++ " - " ++ post.link
  | none => "New blog post: " ++ post.link

/-- The text chosen by `handlePost`'s switch for a new/updated item: the fixed
update template when the item classified as updated, otherwise
`GetTootContent`. -/
def formatContent (post : RSSItem) (skipPrefixCategories : List String) (isUpdate : Bool) : String :=
  if isUpdate then "Blog post has been updated: " ++ post.link
  else GetTootContent post skipPrefixCategories

/-- Observable events of one poll cycle.  `alert` is the AlertSink's
`notify(title, message)` capability from the spec; the other constructors
correspond to the calls and log statements in `Run` / `handlePost`. -/
inductive Event where
  | fetchErrorLogged
  | classify (link : String)
  | dbError (link : String)
  | toot (content : String)
  | tootFailed (link : String) (isUpdate : Bool)
  | alert (title message : String)
  | record (link content : String)
  | storeError (link : String)
  | bluesky (content : String)
  | blueskyFailed
  | threads (content : String)
  | threadsFailed
  | sleep (minutes : Int)
deriving Repr, DecidableEq

/-- Outcome flags for the effectful calls made while handling one post: a
`true` flag makes the corresponding external call return an error. -/
structure Outcomes where
  dbFails : Bool := false
  tootFails : Bool := false
  storeFails : Bool := false
  blueskyFails : Bool := false
  threadsFails : Bool := false
deriving Repr

/-- The tail of `handlePost` after classification chose a new/updated item and
`tootContent`/`isUpdate` were set: attempt `mastodon.TootPost`; on failure log
and return (no record, no secondaries); on success call `db.StoreTootedPost`
(logging a failure but continuing), then post to Bluesky when its credentials
are configured, then to Threads when its credentials are configured. -/
def publishAndFanOut (post : RSSItem) (conf : Config) (oc : Outcomes) (st : Store)
    (now : String) (tootContent : String) (isUpdate : Bool) (ev0 : List Event) :
    Store × List Event :=
  let ev1 := ev0 ++ [Event.toot tootContent]
  if oc.tootFails then (st, ev1 ++ [Event.tootFailed post.link isUpdate])
  else
    let step2 : Store × List Event :=
      if oc.storeFails then (st, ev1 ++ [Event.storeError post.link])
      else (StoreTootedPost st post.link post.content now,
            ev1 ++ [Event.record post.link post.content])
    let step3 : Store × List Event :=
      if conf.blueskyHandle ≠ "" ∧ conf.blueskyPassword ≠ "" then
        (step2.1, step2.2 ++ [Event.bluesky tootContent]
          ++ (if oc.blueskyFails then [Event.blueskyFailed] else []))
      else step2
    if conf.threadsUserID ≠ "" ∧ conf.threadsToken ≠ "" then
      (step3.1, step3.2 ++ [Event.threads tootContent]
        ++ (if oc.threadsFails then [Event.threadsFailed] else []))
    else step3

/-- `handlePost`: classify via `db.HasPostChanged` (a database error is logged
and aborts the item); an unchanged item is a no-op; a new or updated item is
formatted and handed to the publish fan-out. -/
def handlePost (post : RSSItem) (conf : Config) (oc : Outcomes) (st : Store)
    (now : String) : Store × List Event :=
  if oc.dbFails then (st, [Event.classify post.link, Event.dbError post.link])
  else
    let res := HasPostChanged st post.link post.content
    let ev0 := [Event.classify post.link]
    if res.1 ∧ res.2 then
      publishAndFanOut post conf oc st now (formatContent post conf.skipPrefixCategories true) true ev0
    else if ¬ res.1 then
      publishAndFanOut post conf oc st now (formatContent post conf.skipPrefixCategories false) false ev0
    else (st, ev0)

/-- The interval actually used by `Run`: a non-positive configured interval is
replaced by the default of 60 minutes before the loop starts. -/
def runInterval (interval : Int) : Int :=
  if interval ≤ 0 then 60 else interval

/-- The category filter applied by `Run` to each fetched post: with a
configured category, keep the post exactly when the last path segment of its
link contains the category string. -/
def passesFilter (conf : Config) (post : RSSItem) : Bool :=
  conf.category = "" || goContains (pathBase post.link) conf.category

/-- One iteration of `Run`'s loop: on fetch error, log and `continue`
(observably: no item is touched and no sleep happens before the next fetch);
on success, handle each post that passes the category filter in order, then
sleep for the configured interval. -/
def runCycle (conf : Config) (fetched : Except Unit (List RSSItem))
    (oc : RSSItem → Outcomes) (st : Store) (now : String) : Store × List Event :=
  match fetched with
  | Except.error _ => (st, [Event.fetchErrorLogged])
  | Except.ok posts =>
    let step := posts.foldl
      (fun acc post =>
        if passesFilter conf post then
          let r := handlePost post conf (oc post) acc.1 now
          (r.1, acc.2 ++ r.2)
        else acc)
      (st, ([] : List Event))
    (step.1, step.2 ++ [Event.sleep (runInterval conf.interval)])

/-! ### Store lemmas -/

lemma lookupStore_store_self (st : Store) (l c now : String) :
    lookupStore (StoreTootedPost st l c now) l = some ⟨hashHex c, now⟩ := by
  unfold lookupStore StoreTootedPost
  rw [List.find?_cons_of_pos]
  · rfl
  · simp

lemma find?_filter_ne (l other : String) (h : other ≠ l) : ∀ st : Store,
    (st.filter (fun e => ¬ (e.1 = l))).find? (fun e => e.1 = other)
      = st.find? (fun e => e.1 = other)
  | [] => rfl
  | (k, r) :: t => by
    by_cases hko : k = other
    · have hk : ¬ (k = l) := fun hkl => h (hko.symm.trans hkl)
      rw [List.filter_cons_of_pos (by simpa using hk),
          List.find?_cons_of_pos _ (by simpa using hko),
          List.find?_cons_of_pos _ (by simpa using hko)]
    · by_cases hk : k = l
      · rw [List.filter_cons_of_neg (by simpa using hk),
            List.find?_cons_of_neg _ (by simpa using hko)]
        exact find?_filter_ne l other h t
      · rw [List.filter_cons_of_pos (by simpa using hk),
            List.find?_cons_of_neg _ (by simpa using hko),
            List.find?_cons_of_neg _ (by simpa using hko)]
        exact find?_filter_ne l other h t

lemma lookupStore_store_other (st : Store) (l c now other : String) (h : other ≠ l) :
    lookupStore (StoreTootedPost st l c now) other = lookupStore st other := by
  unfold lookupStore StoreTootedPost
  rw [List.find?_cons_of_neg]
  · rw [find?_filter_ne l other h st]
  · simpa using fun hlo => h hlo.symm

lemma hasPostChanged_fst_false (st : Store) (l c : String)
    (h : (HasPostChanged st l c).1 = false) : HasPostChanged st l c = (false, false) := by
  unfold HasPostChanged at *
  cases hl : lookupStore st l with
  | none => rfl
  | some r =>
    rw [hl] at h
    by_cases hc : r.contentHash = hashHex c <;> simp [hc] at h

/-- `HashContent` reproduces the repository's own `TestHashContent` vector
(the SHA-256 of "This is a test post"). -/
theorem hashContent_matches_repo_test_vector :
    HashContent "This is a test post" =
      [171, 214, 38, 231, 215, 166, 144, 206, 157, 133, 112, 100, 123, 136,
       149, 247, 102, 45, 79, 114, 7, 254, 136, 203, 103, 200, 223, 156, 18,
       75, 167, 165] := by
  decide

lemma wordBytes_lt (w : Nat) : ∀ b ∈ wordBytes w, b < 256 := by
  intro b hb
  simp only [wordBytes, List.mem_cons, List.not_mem_nil, or_false] at hb
  rcases hb with rfl | rfl | rfl | rfl <;> exact Nat.mod_lt _ (by norm_num)

lemma hashContent_length (s : String) : (HashContent s).length = 32 := by
  simp [HashContent, wordBytes]

lemma hashContent_lt (s : String) : ∀ b ∈ HashContent s, b < 256 := by
  intro b hb
  simp only [HashContent, List.mem_append] at hb
  rcases hb with ((((((hb | hb) | hb) | hb) | hb) | hb) | hb) | hb <;>
    exact wordBytes_lt _ b hb

/-- The values `rss.HashContent` can take: byte lists of length 32. -/
abbrev Digest : Type := {l : List Nat // l.length = 32 ∧ ∀ b ∈ l, b < 256}

instance : Finite Digest := by
  apply Finite.of_injective (fun d : Digest => (fun i : Fin 32 =>
    (⟨d.val.getD i.val 0 % 256, Nat.mod_lt _ (by norm_num)⟩ : Fin 256)))
  intro d1 d2 hfe
  apply Subtype.ext
  apply List.ext_getElem (by rw [d1.2.1, d2.2.1])
  intro i h1 h2
  have hfi := congrFun hfe ⟨i, by rw [d1.2.1] at h1; exact h1⟩
  have hv := congrArg Fin.val hfi
  simp only at hv
  rw [List.getD_eq_getElem _ _ h1, List.getD_eq_getElem _ _ h2,
      Nat.mod_eq_of_lt (d1.2.2 _ (List.getElem_mem h1)),
      Nat.mod_eq_of_lt (d2.2.2 _ (List.getElem_mem h2))] at hv
  exact hv

/-- C2 (counterexample): the claim's `c2 ≠ c1 ⇒ classify = (true, true)`
clause asserts that distinct contents always have distinct stored
fingerprints, i.e. that the SHA-256 hex digest is injective on all strings —
impossible, since strings are infinite and 32-byte digests are finitely many.
So the claim, universally quantified as stated, is false of the code. -/
theorem dedup_fingerprint_collision_exists :
    ¬ (∀ (st : Store) (l c1 c2 now : String), c2 ≠ c1 →
        HasPostChanged (StoreTootedPost st l c1 now) l c2 = (true, true)) := by
  intro hall
  have hinj : Function.Injective hashHex := by
    intro a b hab
    by_contra hne
    have h := hall [] "L" a b "t" (Ne.symm hne)
    unfold HasPostChanged at h
    rw [lookupStore_store_self] at h
    simp [hab] at h
  have hinj2 : Function.Injective HashContent := by
    intro a b h
    exact hinj (show hashHex a = hashHex b by unfold hashHex; rw [h])
  obtain ⟨s1, s2, hne, heq⟩ := Finite.exists_ne_map_eq_of_infinite
    (fun s : String => (⟨HashContent s, hashContent_length s, hashContent_lt s⟩ : Digest))
  exact hne (hinj2 (congrArg Subtype.val heq))

/-- C2 (amended): `HasPostChanged` is a pure lookup with the stated
postcondition: an absent record gives `(false, false)`; a present record
gives `(true, true)` when the stored fingerprint differs from the content's
fingerprint and `(true, false)` when it is equal (the embedding makes it a
function of the store, so it mutates nothing).  After `record(link, c1)`:
classifying the same link with `c1` gives `(true, false)`; with `c2` it gives
`(true, true)` whenever the fingerprints of `c2` and `c1` differ — which for
`c2 ≠ c1` is exactly the absence of a SHA-256 collision; and a never-recorded
link gives `(false, false)`. -/
theorem hasPostChanged_postcondition (st : Store) (l c other c1 c2 now : String) :
    (lookupStore st l = none → HasPostChanged st l c = (false, false)) ∧
    (∀ r : PostRecord, lookupStore st l = some r → r.contentHash ≠ hashHex c →
      HasPostChanged st l c = (true, true)) ∧
    (∀ r : PostRecord, lookupStore st l = some r → r.contentHash = hashHex c →
      HasPostChanged st l c = (true, false)) ∧
    (HasPostChanged (StoreTootedPost st l c1 now) l c1 = (true, false)) ∧
    (hashHex c2 ≠ hashHex c1 →
      HasPostChanged (StoreTootedPost st l c1 now) l c2 = (true, true)) ∧
    (other ≠ l → lookupStore st other = none →
      HasPostChanged (StoreTootedPost st l c1 now) other c = (false, false)) := by
  refine ⟨?_, ?_, ?_, ?_, ?_, ?_⟩
  · intro h
    unfold HasPostChanged
    rw [h]
  · intro r hr hneq
    unfold HasPostChanged
    rw [hr]
    simp [hneq]
  · intro r hr heq
    unfold HasPostChanged
    rw [hr]
    simp [heq]
  · unfold HasPostChanged
    rw [lookupStore_store_self]
    simp
  · intro hne
    unfold HasPostChanged
    rw [lookupStore_store_self]
    simp [Ne.symm hne]
  · intro hne habs
    unfold HasPostChanged
    rw [lookupStore_store_other st l c1 now other hne, habs]

/-- Witness for C2 at concrete inputs; the `(true, true)` case discharges its
fingerprint-inequality hypothesis by computing both SHA-256 digests. -/
theorem hasPostChanged_postcondition_witness :
    HasPostChanged (StoreTootedPost [] "L" "c1" "t0") "L" "c1" = (true, false) ∧
    HasPostChanged (StoreTootedPost [] "L" "c1" "t0") "L" "c2" = (true, true) ∧
    HasPostChanged (StoreTootedPost [] "L" "c1" "t0") "M" "x" = (false, false) ∧
    HasPostChanged [] "L" "c1" = (false, false) := by
  have h := hasPostChanged_postcondition [] "L" "x" "M" "c1" "c2" "t0"
  exact ⟨h.2.2.2.1, h.2.2.2.2.1 (by decide), h.2.2.2.2.2 (by decide) rfl,
    h.1 rfl⟩

/-- C1: when the primary (Mastodon) publish fails for an item classified as
new or updated, `StoreTootedPost` is never reached and no secondary publisher
is attempted: the store is returned unchanged, the trace has no `record`, no
`bluesky` and no `threads` event, and the link classifies exactly as before. -/
theorem primary_failure_no_commit (post : RSSItem) (conf : Config) (oc : Outcomes)
    (st : Store) (now : String)
    (hdb : oc.dbFails = false) (ht : oc.tootFails = true)
    (hnu : (HasPostChanged st post.link post.content).1 = false ∨
           (HasPostChanged st post.link post.content).2 = true) :
    (handlePost post conf oc st now).1 = st ∧
    (∀ l c, Event.record l c ∉ (handlePost post conf oc st now).2) ∧
    (∀ c, Event.bluesky c ∉ (handlePost post conf oc st now).2) ∧
    (∀ c, Event.threads c ∉ (handlePost post conf oc st now).2) ∧
    HasPostChanged (handlePost post conf oc st now).1 post.link post.content
      = HasPostChanged st post.link post.content := by
  rcases he : HasPostChanged st post.link post.content with ⟨e, u⟩
  cases e <;> cases u <;>
    simp [handlePost, publishAndFanOut, he, hdb, ht]

/-- Witness for C1: a new post whose Mastodon publish fails leaves the empty
store empty and produces no `record` event. -/
theorem primary_failure_no_commit_witness :
    (handlePost ⟨"T", "L", "c"⟩ {} { tootFails := true } [] "t").1 = ([] : Store) ∧
    Event.record "L" "c" ∉ (handlePost ⟨"T", "L", "c"⟩ {} { tootFails := true } [] "t").2 := by
  have h := primary_failure_no_commit ⟨"T", "L", "c"⟩ {} { tootFails := true } [] "t"
    rfl rfl (Or.inl (by decide))
  exact ⟨h.1, h.2.1 "L" "c"⟩

/-- C3: when the primary publish succeeds for a new/updated item (and the
store upsert succeeds), `record` happens immediately after the primary success
and before any secondary; then Bluesky and Threads (both configured here) are
attempted in sequence, a Bluesky failure neither blocks Threads nor changes
the store, and the item's handling always runs to completion. -/
theorem primary_success_commits_then_fans_out (post : RSSItem) (conf : Config)
    (oc : Outcomes) (st : Store) (now : String)
    (hdb : oc.dbFails = false) (ht : oc.tootFails = false) (hs : oc.storeFails = false)
    (hnu : (HasPostChanged st post.link post.content).1 = false ∨
           (HasPostChanged st post.link post.content).2 = true)
    (hb1 : conf.blueskyHandle ≠ "") (hb2 : conf.blueskyPassword ≠ "")
    (ht1 : conf.threadsUserID ≠ "") (ht2 : conf.threadsToken ≠ "") :
    handlePost post conf oc st now =
      (StoreTootedPost st post.link post.content now,
       [Event.classify post.link,
        Event.toot (formatContent post conf.skipPrefixCategories
          (HasPostChanged st post.link post.content).2),
        Event.record post.link post.content,
        Event.bluesky (formatContent post conf.skipPrefixCategories
          (HasPostChanged st post.link post.content).2)]
        ++ (if oc.blueskyFails then [Event.blueskyFailed] else [])
        ++ ([Event.threads (formatContent post conf.skipPrefixCategories
             (HasPostChanged st post.link post.content).2)]
        ++ (if oc.threadsFails then [Event.threadsFailed] else []))) := by
  rcases he : HasPostChanged st post.link post.content with ⟨e, u⟩
  cases e
  · cases u
    · simp [handlePost, publishAndFanOut, he, hdb, ht, hs, hb1, hb2, ht1, ht2, formatContent]
    · have himp := hasPostChanged_fst_false st post.link post.content (by rw [he])
      rw [he] at himp
      simp at himp
  · cases u
    · rcases hnu with h | h <;> rw [he] at h <;> simp at h
    · simp [handlePost, publishAndFanOut, he, hdb, ht, hs, hb1, hb2, ht1, ht2, formatContent]

/-- Witness for C3: a new post, Bluesky and Threads configured, Bluesky
failing — the store is updated and Threads is still attempted after the
Bluesky failure. -/
theorem primary_success_commits_then_fans_out_witness :
    handlePost ⟨"T", "L", "c"⟩
        { blueskyHandle := "h", blueskyPassword := "p",
          threadsUserID := "u", threadsToken := "k" }
        { blueskyFails := true } [] "t" =
      (StoreTootedPost [] "L" "c" "t",
       [Event.classify "L",
        Event.toot (formatContent ⟨"T", "L", "c"⟩ []
          (HasPostChanged [] "L" "c").2),
        Event.record "L" "c",
        Event.bluesky (formatContent ⟨"T", "L", "c"⟩ []
          (HasPostChanged [] "L" "c").2)]
        ++ (if (true : Bool) then [Event.blueskyFailed] else [])
        ++ ([Event.threads (formatContent ⟨"T", "L", "c"⟩ []
             (HasPostChanged [] "L" "c").2)]
        ++ (if (false : Bool) then [Event.threadsFailed] else []))) :=
  primary_success_commits_then_fans_out ⟨"T", "L", "c"⟩
    { blueskyHandle := "h", blueskyPassword := "p",
      threadsUserID := "u", threadsToken := "k" }
    { blueskyFails := true } [] "t"
    rfl rfl rfl (Or.inl (by decide)) (by decide) (by decide) (by decide) (by decide)

/-- C4: on a fetch/parse failure `Run` logs the error and touches no item —
but the `continue` statement jumps past `time.Sleep`, so the cycle's trace
contains no `sleep` event at all: the next fetch attempt is immediate, not
after the configured interval. -/
theorem fetch_error_cycle (conf : Config) (oc : RSSItem → Outcomes)
    (st : Store) (now : String) :
    runCycle conf (Except.error ()) oc st now = (st, [Event.fetchErrorLogged]) :=
  rfl

/-- C5 (failing scenario): a new item whose Mastodon publish fails is only
logged — the trace that `handlePost` produces contains no `alert` event, even
though the spec requires an AlertSink `notify(title, message)` call here. -/
theorem primary_failure_not_alerted :
    handlePost ⟨"Mastodon Error", "https://example.com/mastodon-error", "content"⟩
        {} { tootFails := true } [] "t" =
      ([], [Event.classify "https://example.com/mastodon-error",
            Event.toot "New blog post: https://example.com/mastodon-error",
            Event.tootFailed "https://example.com/mastodon-error" false]) := by
  decide

/-- No branch of `handlePost` ever emits an AlertSink event: the Gotify
package's `logFailure` is never called from the orchestrator. -/
lemma handlePost_never_alerts (post : RSSItem) (conf : Config) (oc : Outcomes)
    (st : Store) (now : String) (t m : String) :
    Event.alert t m ∉ (handlePost post conf oc st now).2 := by
  rcases he : HasPostChanged st post.link post.content with ⟨e, u⟩
  by_cases hdb : oc.dbFails = true
  · simp [handlePost, hdb]
  · by_cases htf : oc.tootFails = true <;>
      by_cases hsf : oc.storeFails = true <;>
        by_cases hbs : conf.blueskyHandle ≠ "" ∧ conf.blueskyPassword ≠ "" <;>
          by_cases hth : conf.threadsUserID ≠ "" ∧ conf.threadsToken ≠ "" <;>
            cases e <;> cases u <;>
              simp [handlePost, publishAndFanOut, he, hdb, htf, hsf, hbs, hth]

/-- C6 (counterexample): a new item, Mastodon publish succeeding, the store
upsert failing, both secondaries configured — `handlePost` logs the store
error and then still attempts Bluesky and Threads, so the claim's "no further
processing of that item after a record failure" is false. -/
theorem store_error_still_fans_out_counterexample :
    handlePost ⟨"T", "L", "c"⟩
        { blueskyHandle := "h", blueskyPassword := "p",
          threadsUserID := "u", threadsToken := "k" }
        { storeFails := true } [] "t" =
      ([], [Event.classify "L", Event.toot "New blog post: L",
            Event.storeError "L", Event.bluesky "New blog post: L",
            Event.threads "New blog post: L"]) ∧
    Event.bluesky "New blog post: L" ∈
      (handlePost ⟨"T", "L", "c"⟩
        { blueskyHandle := "h", blueskyPassword := "p",
          threadsUserID := "u", threadsToken := "k" }
        { storeFails := true } [] "t").2 := by
  constructor <;> decide

/-- C6 (amended): a storage failure on classify is logged and aborts the item
before any publish; a storage failure on record is logged and leaves the store
unchanged, but the configured secondary publishers are still attempted. -/
theorem store_error_handling (post : RSSItem) (conf : Config) (oc : Outcomes)
    (st : Store) (now : String) :
    (oc.dbFails = true →
      handlePost post conf oc st now
        = (st, [Event.classify post.link, Event.dbError post.link])) ∧
    (oc.dbFails = false → oc.tootFails = false → oc.storeFails = true →
      ((HasPostChanged st post.link post.content).1 = false ∨
       (HasPostChanged st post.link post.content).2 = true) →
      handlePost post conf oc st now =
        (st, [Event.classify post.link,
              Event.toot (formatContent post conf.skipPrefixCategories
                (HasPostChanged st post.link post.content).2),
              Event.storeError post.link]
          ++ (if conf.blueskyHandle ≠ "" ∧ conf.blueskyPassword ≠ "" then
                Event.bluesky (formatContent post conf.skipPrefixCategories
                  (HasPostChanged st post.link post.content).2)
                  :: (if oc.blueskyFails then [Event.blueskyFailed] else [])
              else [])
          ++ (if conf.threadsUserID ≠ "" ∧ conf.threadsToken ≠ "" then
                Event.threads (formatContent post conf.skipPrefixCategories
                  (HasPostChanged st post.link post.content).2)
                  :: (if oc.threadsFails then [Event.threadsFailed] else [])
              else []))) := by
  constructor
  · intro hdb
    simp [handlePost, hdb]
  · intro hdb htf hsf hnu
    rcases he : HasPostChanged st post.link post.content with ⟨e, u⟩
    cases e
    · cases u
      · by_cases hbs : conf.blueskyHandle ≠ "" ∧ conf.blueskyPassword ≠ "" <;>
          by_cases hth : conf.threadsUserID ≠ "" ∧ conf.threadsToken ≠ "" <;>
            simp [handlePost, publishAndFanOut, he, hdb, htf, hsf, hbs, hth, formatContent]
      · have himp := hasPostChanged_fst_false st post.link post.content (by rw [he])
        rw [he] at himp
        simp at himp
    · cases u
      · rcases hnu with h | h <;> rw [he] at h <;> simp at h
      · by_cases hbs : conf.blueskyHandle ≠ "" ∧ conf.blueskyPassword ≠ "" <;>
          by_cases hth : conf.threadsUserID ≠ "" ∧ conf.threadsToken ≠ "" <;>
            simp [handlePost, publishAndFanOut, he, hdb, htf, hsf, hbs, hth, formatContent]

/-- Witness for the amended C6: classify failure aborts the item; record
failure with only Bluesky configured leaves the store unchanged and still
posts to Bluesky. -/
theorem store_error_handling_witness :
    handlePost ⟨"T", "M", "d"⟩ {} { dbFails := true } [] "t"
      = ([], [Event.classify "M", Event.dbError "M"]) ∧
    handlePost ⟨"T", "M", "d"⟩ { blueskyHandle := "h", blueskyPassword := "p" }
        { storeFails := true } [] "t" =
      ([], [Event.classify "M",
            Event.toot (formatContent ⟨"T", "M", "d"⟩ []
              (HasPostChanged [] "M" "d").2),
            Event.storeError "M"]
        ++ (if ("h" : String) ≠ "" ∧ ("p" : String) ≠ "" then
              Event.bluesky (formatContent ⟨"T", "M", "d"⟩ []
                (HasPostChanged [] "M" "d").2)
                :: (if (false : Bool) then [Event.blueskyFailed] else [])
            else [])
        ++ (if ("" : String) ≠ "" ∧ ("" : String) ≠ "" then
              Event.threads (formatContent ⟨"T", "M", "d"⟩ []
                (HasPostChanged [] "M" "d").2)
                :: (if (false : Bool) then [Event.threadsFailed] else [])
            else []) ) :=
  ⟨(store_error_handling ⟨"T", "M", "d"⟩ {} { dbFails := true } [] "t").1 rfl,
   (store_error_handling ⟨"T", "M", "d"⟩ { blueskyHandle := "h", blueskyPassword := "p" }
      { storeFails := true } [] "t").2 rfl rfl rfl (Or.inl (by decide))⟩

/-- C7: the published text follows exactly the three rules in order: an
updated item gets the fixed update template containing its link; otherwise a
title starting with some configured skip-prefix category (case-sensitive
prefix match) gets `"{content} - {link}"`; otherwise `"New blog post: {link}"`.
The spec's example item yields `"body - L"`. -/
theorem formatter_rules (post : RSSItem) (skip : List String) :
    formatContent post skip true = "Blog post has been updated: " ++ post.link ∧
    (skip.any (fun cat => goStartsWith post.title cat) = true →
      formatContent post skip false = post.content ++ " - " ++ post.link) ∧
    (skip.any (fun cat => goStartsWith post.title cat) = false →
      formatContent post skip false = "New blog post: " ++ post.link) ∧
    formatContent ⟨"Thoughts on X", "L", "body"⟩ ["Thoughts"] false = "body - L" := by
  refine ⟨rfl, ?_, ?_, by decide⟩
  · intro h
    rw [List.any_eq_true] at h
    obtain ⟨x, hx, hpx⟩ := h
    obtain ⟨c, hc⟩ := Option.isSome_iff_exists.mp (List.find?_isSome.mpr ⟨x, hx, hpx⟩)
    simp [formatContent, GetTootContent, hc]
  · intro h
    rw [List.any_eq_false] at h
    have hnone : skip.find? (fun cat => goStartsWith post.title cat) = none :=
      List.find?_eq_none.mpr h
    simp [formatContent, GetTootContent, hnone]

/-- Witness for C7: the skip-prefix rule fires for the spec's example and the
default rule fires when no category is a prefix of the title. -/
theorem formatter_rules_witness :
    formatContent ⟨"Thoughts on X", "L", "body"⟩ ["Thoughts"] false = "body - L" ∧
    formatContent ⟨"New Thing", "L", "c"⟩ [] false = "New blog post: L" :=
  ⟨((formatter_rules ⟨"Thoughts on X", "L", "body"⟩ ["Thoughts"]).2.1 (by decide)),
   ((formatter_rules ⟨"New Thing", "L", "c"⟩ []).2.2.1 (by decide))⟩

/-- C8: with a category configured, an item whose link's last path segment
contains the category is handled, and one whose segment does not is dropped
with zero side effects: the store is untouched and the cycle trace records no
event at all for it (no classify, no publish, no record). -/
theorem category_filter (conf : Config) (post : RSSItem) (oc : RSSItem → Outcomes)
    (st : Store) (now : String) (hcat : conf.category ≠ "") :
    (goContains (pathBase post.link) conf.category = false →
      runCycle conf (Except.ok [post]) oc st now
        = (st, [Event.sleep (runInterval conf.interval)])) ∧
    (goContains (pathBase post.link) conf.category = true →
      runCycle conf (Except.ok [post]) oc st now
        = ((handlePost post conf (oc post) st now).1,
           (handlePost post conf (oc post) st now).2
             ++ [Event.sleep (runInterval conf.interval)])) := by
  constructor <;> intro h <;>
    simp [runCycle, passesFilter, hcat, h]

/-- Witness for C8 at the spec's example links: `"tech-post"` contains
`"tech"` so the item is handled; `"other-post"` does not, so the cycle only
sleeps and the store stays empty. -/
theorem category_filter_witness :
    runCycle { category := "tech" }
        (Except.ok [⟨"T", "https://x.com/a/other-post", "c"⟩])
        (fun _ => {}) [] "t"
      = ([], [Event.sleep 60]) ∧
    runCycle { category := "tech" }
        (Except.ok [⟨"T", "https://x.com/a/tech-post", "c"⟩])
        (fun _ => {}) [] "t"
      = ((handlePost ⟨"T", "https://x.com/a/tech-post", "c"⟩ { category := "tech" }
            {} [] "t").1,
         (handlePost ⟨"T", "https://x.com/a/tech-post", "c"⟩ { category := "tech" }
            {} [] "t").2 ++ [Event.sleep 60]) :=
  ⟨(category_filter { category := "tech" } ⟨"T", "https://x.com/a/other-post", "c"⟩
      (fun _ => {}) [] "t" (by decide)).1 (by decide),
   (category_filter { category := "tech" } ⟨"T", "https://x.com/a/tech-post", "c"⟩
      (fun _ => {}) [] "t" (by decide)).2 (by decide)⟩

/-- C9: a non-positive configured interval is corrected to the default of 60
minutes before the loop, a positive one is kept, the effective interval is
always positive (no zero-delay busy loop), and a successful cycle sleeps for
exactly that corrected interval. -/
theorem interval_correction (conf : Config) (i : Int) (oc : RSSItem → Outcomes)
    (st : Store) (now : String) :
    (i ≤ 0 → runInterval i = 60) ∧
    (0 < i → runInterval i = i) ∧
    0 < runInterval i ∧
    runCycle conf (Except.ok []) oc st now
      = (st, [Event.sleep (runInterval conf.interval)]) := by
  refine ⟨fun h => by simp [runInterval, h], fun h => ?_, ?_, by simp [runCycle]⟩
  · rw [runInterval, if_neg (by omega)]
  · by_cases h : i ≤ 0
    · rw [runInterval, if_pos h]
      omega
    · rw [runInterval, if_neg h]
      omega

/-- Witness for C9: interval −3 is corrected to 60 and interval 5 is kept. -/
theorem interval_correction_witness :
    runInterval (-3) = 60 ∧ runInterval 5 = 5 ∧ (0 : Int) < runInterval (-3) :=
  ⟨(interval_correction {} (-3) (fun _ => {}) [] "t").1 (by decide),
   (interval_correction {} 5 (fun _ => {}) [] "t").2.1 (by decide),
   (interval_correction {} (-3) (fun _ => {}) [] "t").2.2.1⟩

/-- C10: if the empty string is among the skip-prefix categories, every
non-update item is formatted as `"{content} - {link}"`, because the empty
string is a prefix of every title — the `"New blog post:"` branch is
unreachable. -/
theorem empty_skip_category_forces_content_link (post : RSSItem)
    (skip : List String) (h : "" ∈ skip) :
    GetTootContent post skip = post.content ++ " - " ++ post.link := by
  unfold GetTootContent
  cases hf : skip.find? (fun cat => goStartsWith post.title cat) with
  | some c => rfl
  | none =>
    rw [List.find?_eq_none] at hf
    exact absurd (show goStartsWith post.title "" = true from rfl) (hf "" h)

/-- Witness for C10: with `[""]` as the category list even a title that
matches no real category gets the content–link form. -/
theorem empty_skip_category_forces_content_link_witness :
    GetTootContent ⟨"Some Title", "L", "body"⟩ [""] = "body - L" :=
  empty_skip_category_forces_content_link ⟨"Some Title", "L", "body"⟩ [""] (by decide)

end RSS2Socials
